import Mathlib

/-!
Verification development for the realtime voice-agent session manager of the
meet-ai repository.

The definitions below are a shallow embedding of the client hook
`src/client/src/hooks/use-realtime-agent.ts` (session state machine, transcript
assembler, recorder lifecycle) and of the signaling relay route
`POST /api/realtime/session` from `src/server/routes.ts`.

Modelling conventions:
* React `useState` state and the mutable refs of the hook are collected in one
  record `HookState`; every handler becomes a pure state transformer.
* JavaScript truthiness tests on strings (`if (event.delta)`,
  `if (event.transcript)`, `agent.voice || "alloy"`, ...) are modelled as
  emptiness tests, and optional/absent payload fields as `Option`.
* Message ids are produced in the source by `msg-${Date.now()}-${counter}` with
  a monotonically increasing per-session counter; the wall-clock part is
  environment noise, so ids are modelled as the counter value, which preserves
  exactly the per-session uniqueness the source provides.  The `timestamp`
  field of a message (wall-clock `new Date()`) is likewise omitted: no claim
  concerns it and it is pure environment input.
* Outbound sends on the data channel (`dc.send(...)`) and console logging are
  external effects with no influence on the session state and are dropped.
* Browser objects are modelled by the part of their state the source reads:
  a data channel by its `readyState`, a media recorder by its `state`,
  streams / audio elements / audio contexts as opaque tokens (`Unit`).
-/

namespace MeetAI

/-- Speaker role of a transcript message (field `type` of `RealtimeMessage`). -/
inductive Role where
  | user
  | assistant
deriving DecidableEq, Repr

/-- One transcript entry, mirroring `RealtimeMessage` from the source
(`id`, `type`, `content`, `isFinal`; the wall-clock `timestamp` is omitted,
see the module docstring). -/
structure RealtimeMessage where
  id : Nat
  type : Role
  content : String
  isFinal : Bool
deriving DecidableEq, Repr

/-- `RTCDataChannel.readyState` values. -/
inductive RTCDataChannelState where
  | connecting
  | «open»
  | closing
  | closed
deriving DecidableEq, Repr

/-- The part of an `RTCDataChannel` the hook reads: its ready state. -/
structure RTCDataChannel where
  readyState : RTCDataChannelState
deriving DecidableEq, Repr

/-- `RTCPeerConnection.connectionState` values. -/
inductive RTCPeerConnectionState where
  | new
  | connecting
  | connected
  | disconnected
  | failed
  | closed
deriving DecidableEq, Repr

/-- The part of an `RTCPeerConnection` the hook state depends on. -/
structure RTCPeerConnection where
  connectionState : RTCPeerConnectionState
deriving DecidableEq, Repr

/-- `MediaRecorder.state` values. -/
inductive RecorderState where
  | inactive
  | recording
  | paused
deriving DecidableEq, Repr

/-- The part of a `MediaRecorder` the hook reads: its recording state. -/
structure MediaRecorder where
  state : RecorderState
deriving DecidableEq, Repr

/-- The React `useState` record `RealtimeAgentState` of the hook. -/
structure RealtimeAgentState where
  isConnected : Bool
  isConnecting : Bool
  isListening : Bool
  isSpeaking : Bool
  isRecording : Bool
  error : Option String
  messages : List RealtimeMessage
  connectionState : Option RTCPeerConnectionState
deriving DecidableEq, Repr

/-- The whole mutable state of one `useRealtimeAgent` hook instance: the React
state plus every `useRef` cell.  Recorded audio chunks are opaque blobs. -/
structure HookState where
  state : RealtimeAgentState
  peerConnection : Option RTCPeerConnection
  dataChannel : Option RTCDataChannel
  audioElement : Option Unit
  localStream : Option Unit
  remoteStream : Option Unit
  mediaRecorder : Option MediaRecorder
  recordedChunks : List Unit
  audioContext : Option Unit
  recordingReady : Bool
  currentAssistantMessageId : Option Nat
  currentAssistantText : String
  messageIdCounter : Nat
deriving DecidableEq, Repr

/-- The initial `useState` value of the hook. -/
def initAgentState : RealtimeAgentState :=
  { isConnected := false
    isConnecting := false
    isListening := false
    isSpeaking := false
    isRecording := false
    error := none
    messages := []
    connectionState := none }

/-- Initial hook state: initial React state, all refs `null`, counter `0`. -/
def initState : HookState :=
  { state := initAgentState
    peerConnection := none
    dataChannel := none
    audioElement := none
    localStream := none
    remoteStream := none
    mediaRecorder := none
    recordedChunks := []
    audioContext := none
    recordingReady := false
    currentAssistantMessageId := none
    currentAssistantText := ""
    messageIdCounter := 0 }

/-- One element of a `conversation.item.created` item's `content` array. -/
structure ContentPart where
  type : String
  text : Option String
deriving DecidableEq, Repr

/-- The `item` payload of a server event. -/
structure EventItem where
  role : Option String
  content : Option (List ContentPart)
deriving DecidableEq, Repr

/-- A decoded server event from the data channel: the `type` discriminator plus
the payload fields `handleServerEvent` reads. -/
structure ServerEvent where
  type : String
  item : Option EventItem
  transcript : Option String
  delta : Option String
  errorMessage : Option String
deriving DecidableEq, Repr

/-- `generateMessageId`: bump the counter and use it as the fresh id. -/
def generateMessageId (s : HookState) : Nat × HookState :=
  (s.messageIdCounter + 1, { s with messageIdCounter := s.messageIdCounter + 1 })

/-- `addMessage`: append one message to the transcript. -/
def addMessage (s : HookState) (m : RealtimeMessage) : HookState :=
  { s with state := { s.state with messages := s.state.messages ++ [m] } }

/-- The per-message update performed by `updateMessage`:
`msg.id === messageId ? { ...msg, content, isFinal } : msg`. -/
def updContent (msgId : Nat) (content : String) (final : Bool)
    (m : RealtimeMessage) : RealtimeMessage :=
  if m.id = msgId then { m with content := content, isFinal := final } else m

/-- `updateMessage`: rewrite content and finality of the message with the given
id, leaving every other message untouched. -/
def updateMessage (s : HookState) (msgId : Nat) (content : String)
    (final : Bool) : HookState :=
  { s with state :=
      { s.state with
          messages := s.state.messages.map (updContent msgId content final) } }

/-- Shared path of `conversation.item.created` (user branch) and
`conversation.item.input_audio_transcription.completed`: append one final
user message. -/
def addUserMessage (s : HookState) (text : String) : HookState :=
  let p := generateMessageId s
  addMessage p.2 { id := p.1, type := Role.user, content := text, isFinal := true }

/-- `case "conversation.item.created"`: a user item whose content array holds a
truthy `input_text`/`text` part is appended as a final user message. -/
def handleItemCreated (s : HookState) (e : ServerEvent) : HookState :=
  match e.item with
  | some item =>
    if item.role = some "user" then
      match item.content with
      | some parts =>
        match parts.find? (fun c => c.type == "input_text" || c.type == "text") with
        | some part =>
          match part.text with
          | some t => if t = "" then s else addUserMessage s t
          | none => s
        | none => s
      | none => s
    else s
  | none => s

/-- `case "conversation.item.input_audio_transcription.completed"`: a truthy
transcript is appended as a final user message. -/
def handleTranscriptionCompleted (s : HookState) (e : ServerEvent) : HookState :=
  match e.transcript with
  | some t => if t = "" then s else addUserMessage s t
  | none => s

/-- `case "response.output_item.added"`: for an assistant item, open a fresh
non-final assistant message and point the open-turn refs at it. -/
def handleOutputItemAdded (s : HookState) (e : ServerEvent) : HookState :=
  match e.item with
  | some item =>
    if item.role = some "assistant" then
      let p := generateMessageId s
      let s1 := { p.2 with currentAssistantMessageId := some p.1,
                           currentAssistantText := "" }
      addMessage s1 { id := p.1, type := Role.assistant, content := "", isFinal := false }
    else s
  | none => s

/-- The four `*.delta` cases: when the delta is truthy and an assistant message
is tracked, accumulate the text and rewrite that message as non-final. -/
def handleDelta (s : HookState) (e : ServerEvent) : HookState :=
  match e.delta, s.currentAssistantMessageId with
  | some d, some msgId =>
    if d = "" then s
    else
      let newText := s.currentAssistantText ++ d
      updateMessage { s with currentAssistantText := newText } msgId newText false
  | _, _ => s

/-- The four `*.done` cases: when an assistant message is tracked, rewrite it
as final with the accumulated text (the open-turn refs are NOT cleared). -/
def handleTextDone (s : HookState) : HookState :=
  match s.currentAssistantMessageId with
  | some msgId => updateMessage s msgId s.currentAssistantText true
  | none => s

/-- `case "response.output_item.done"`: finalize the tracked message only when
the accumulated text is truthy, then clear the open-turn refs. -/
def handleOutputItemDone (s : HookState) : HookState :=
  let s1 :=
    match s.currentAssistantMessageId with
    | some msgId =>
      if s.currentAssistantText = "" then s
      else updateMessage s msgId s.currentAssistantText true
    | none => s
  { s1 with currentAssistantMessageId := none, currentAssistantText := "" }

/-- `case "response.done"`: clear the speaking flag and the open-turn refs;
the tracked message itself is left as it stands. -/
def handleResponseDone (s : HookState) : HookState :=
  { s with state := { s.state with isSpeaking := false },
           currentAssistantMessageId := none,
           currentAssistantText := "" }

/-- `case "error"`: record `event.error?.message || "Unknown error"`. -/
def handleErrorEvent (s : HookState) (e : ServerEvent) : HookState :=
  let msg :=
    match e.errorMessage with
    | some m => if m = "" then "Unknown error" else m
    | none => "Unknown error"
  { s with state := { s.state with error := some msg } }

/-- `handleServerEvent`: the `switch (event.type)` dispatcher of the hook.
Cases with several labels in the source (`*.delta`, `*.done`) are the
disjunctive branches; the trailing `else s` is the logged-and-dropped
`default` branch. -/
def handleServerEvent (s : HookState) (e : ServerEvent) : HookState :=
  if e.type = "session.created" then s
  else if e.type = "session.updated" then s
  else if e.type = "input_audio_buffer.speech_started" then
    { s with state := { s.state with isListening := true } }
  else if e.type = "input_audio_buffer.speech_stopped" then
    { s with state := { s.state with isListening := false } }
  else if e.type = "input_audio_buffer.committed" then s
  else if e.type = "conversation.item.created" then handleItemCreated s e
  else if e.type = "conversation.item.input_audio_transcription.completed" then
    handleTranscriptionCompleted s e
  else if e.type = "response.created" then
    { s with state := { s.state with isSpeaking := true } }
  else if e.type = "response.output_item.added" then handleOutputItemAdded s e
  else if e.type = "response.audio_transcript.delta"
       ∨ e.type = "response.output_audio_transcript.delta" then handleDelta s e
  else if e.type = "response.text.delta"
       ∨ e.type = "response.output_text.delta" then handleDelta s e
  else if e.type = "response.audio_transcript.done"
       ∨ e.type = "response.output_audio_transcript.done"
       ∨ e.type = "response.text.done"
       ∨ e.type = "response.output_text.done" then handleTextDone s
  else if e.type = "response.output_item.done" then handleOutputItemDone s
  else if e.type = "response.audio.delta" then
    { s with state := { s.state with isSpeaking := true } }
  else if e.type = "response.audio.done" then s
  else if e.type = "response.done" then handleResponseDone s
  else if e.type = "rate_limits.updated" then s
  else if e.type = "error" then handleErrorEvent s e
  else s

/-- Fold a whole event sequence through `handleServerEvent`. -/
def processEvents (s : HookState) (es : List ServerEvent) : HookState :=
  es.foldl handleServerEvent s

/-- `dataChannelRef.current && dataChannelRef.current.readyState === "open"`. -/
def dataChannelIsOpen (s : HookState) : Bool :=
  match s.dataChannel with
  | some dc => dc.readyState == RTCDataChannelState.«open»
  | none => false

/-- `interrupt`: no-op unless the data channel is open; otherwise send the
(dropped, external) `response.cancel` and clear the speaking flag locally. -/
def interrupt (s : HookState) : HookState :=
  if dataChannelIsOpen s then
    { s with state := { s.state with isSpeaking := false } }
  else s

/-- `sendTextMessage`: no-op unless the data channel is open; otherwise send
the (dropped, external) create/response events and append a final user
message locally. -/
def sendTextMessage (s : HookState) (text : String) : HookState :=
  if dataChannelIsOpen s then
    let p := generateMessageId s
    addMessage p.2 { id := p.1, type := Role.user, content := text, isFinal := true }
  else s

/-- `cleanup`: stop-and-null the recorder only when it is not inactive, close
and null the audio context, data channel, peer connection, local stream and
audio element, null the remote stream, and reset the recording/open-turn
refs.  Note the source nulls `mediaRecorderRef` only inside the
`state !== "inactive"` guard, so an already-inactive recorder reference is
retained. -/
def cleanup (s : HookState) : HookState :=
  let mr : Option MediaRecorder :=
    match s.mediaRecorder with
    | some r => if r.state = RecorderState.inactive then some r else none
    | none => none
  { s with
      mediaRecorder := mr
      audioContext := none
      dataChannel := none
      peerConnection := none
      localStream := none
      audioElement := none
      remoteStream := none
      recordingReady := false
      currentAssistantMessageId := none
      currentAssistantText := "" }

/-- `disconnect`: run `cleanup`, then reset the React state to the literal
initial record (the `onDisconnected` observer call is an external effect). -/
def disconnect (s : HookState) : HookState :=
  { cleanup s with state := initAgentState }

/-- Environment inputs to `startRecording`: whether the `AudioContext`
construction plus audio-graph wiring succeeds, and whether the
`MediaRecorder` construction succeeds (either throwing is caught by the
source's `try`/`catch`, which returns `false`). -/
structure RecorderEnv where
  audioContextOk : Bool
  mediaRecorderOk : Bool
deriving DecidableEq, Repr

/-- `startRecording`: fail fast (return `false`, clear the ready flag) when
either stream ref is null; report `true` when a recorder is already active;
otherwise build the mixing graph and start a fresh recorder.  A throw inside
the `try` block before / after the `audioContextRef` assignment is modelled by
the two failure flags of the environment. -/
def startRecording (env : RecorderEnv) (s : HookState) : Bool × HookState :=
  if s.localStream = none ∨ s.remoteStream = none then
    (false, { s with recordingReady := false })
  else if (match s.mediaRecorder with
           | some r => r.state != RecorderState.inactive
           | none => false) then
    (true, s)
  else if env.audioContextOk = false then
    (false, s)
  else if env.mediaRecorderOk = false then
    (false, { s with audioContext := some () })
  else
    (true, { s with
               audioContext := some ()
               recordedChunks := []
               mediaRecorder := some { state := RecorderState.recording }
               state := { s.state with isRecording := true } })

/-- `stopRecording`: resolve `null` when no recorder exists or it is inactive;
otherwise stop the recorder, flush the chunk buffer into a blob (opaque here)
and clear the recording flag. -/
def stopRecording (s : HookState) : Option Unit × HookState :=
  match s.mediaRecorder with
  | some r =>
    if r.state = RecorderState.inactive then (none, s)
    else
      (some (), { s with
                    mediaRecorder := some { state := RecorderState.inactive }
                    recordedChunks := []
                    state := { s.state with isRecording := false } })
  | none => (none, s)

/-! ## Signaling relay: `POST /api/realtime/session` (`src/server/routes.ts`) -/

/-- Stored agent configuration, as read by the route (`instructions`,
nullable `voice`). -/
structure Agent where
  instructions : String
  voice : Option String
deriving DecidableEq, Repr

/-- The session descriptor the route forwards upstream (the constant `type`
and `model` fields are included for completeness). -/
structure SessionConfig where
  type : String
  model : String
  instructions : String
  voice : String
deriving DecidableEq, Repr

/-- The upstream `fetch` outcome the route inspects: `ok`, `status` and the
response text. -/
structure UpstreamResponse where
  ok : Bool
  status : Nat
  body : String
deriving DecidableEq, Repr

/-- An HTTP reply produced by the route. -/
structure HttpReply where
  status : Nat
  contentType : String
  body : String
deriving DecidableEq, Repr

/-- The generic persona used when no agent configuration applies. -/
def defaultInstructions : String :=
  "You are a helpful AI assistant participating in a video call. Be conversational and natural. Always respond in English unless the user specifically asks you to speak another language."

/-- Instructions/voice selection of the route: an agent found for a truthy
`agentId` supplies `instructions` and `voice || "alloy"`; otherwise the
defaults apply. -/
def sessionConfigFor (agentId : Option Int) (getAgent : Int → Option Agent) :
    SessionConfig :=
  let base : SessionConfig :=
    { type := "realtime", model := "gpt-realtime",
      instructions := defaultInstructions, voice := "alloy" }
  match agentId with
  | some i =>
    if i = 0 then base
    else
      match getAgent i with
      | some a =>
        { base with
            instructions := a.instructions
            voice := match a.voice with
                     | some v => if v = "" then "alloy" else v
                     | none => "alloy" }
      | none => base
  | none => base

/-- Body of `res.status(400).json(\x7b error: "SDP offer is required" \x7d)`. -/
def sdpRequiredBody : String := "\x7b\"error\":\"SDP offer is required\"\x7d"

/-- Body of `res.status(...).json(\x7b error: "Failed to create realtime session" \x7d)`,
used both for upstream non-success and for the catch-all handler. -/
def realtimeSessionErrorBody : String :=
  "\x7b\"error\":\"Failed to create realtime session\"\x7d"

/-- The `POST /api/realtime/session` handler.  `sdpOffer` is the parsed text
body (`none` models a missing/non-string body), `upstream` is the outcome of
the `fetch` to the upstream realtime endpoint as a function of the forwarded
session configuration (`Except.error` models a thrown/rejected await, which
the route's `catch` turns into a 500). -/
def realtimeSessionRoute (sdpOffer : Option String) (agentId : Option Int)
    (getAgent : Int → Option Agent)
    (upstream : SessionConfig → Except Unit UpstreamResponse) : HttpReply :=
  match sdpOffer with
  | none => { status := 400, contentType := "application/json", body := sdpRequiredBody }
  | some sdp =>
    if sdp = "" then
      { status := 400, contentType := "application/json", body := sdpRequiredBody }
    else
      match upstream (sessionConfigFor agentId getAgent) with
      | Except.error _ =>
        { status := 500, contentType := "application/json",
          body := realtimeSessionErrorBody }
      | Except.ok up =>
        if up.ok then
          { status := 200, contentType := "application/sdp", body := up.body }
        else
          { status := up.status, contentType := "application/json",
            body := realtimeSessionErrorBody }

/-! ## Concrete events used by the claims -/

/-- A bare event carrying only a `type` string. -/
def mkEvent (ty : String) : ServerEvent :=
  { type := ty, item := none, transcript := none, delta := none, errorMessage := none }

/-- `response.output_item.added` announcing an assistant item. -/
def addedAssistantEvent : ServerEvent :=
  { type := "response.output_item.added"
    item := some { role := some "assistant", content := none }
    transcript := none, delta := none, errorMessage := none }

/-- An assistant audio-transcript delta carrying `d`. -/
def deltaEvent (d : String) : ServerEvent :=
  { type := "response.audio_transcript.delta"
    item := none, transcript := none, delta := some d, errorMessage := none }

/-- `response.audio_transcript.done`, finalizing the tracked turn. -/
def textDoneEvent : ServerEvent := mkEvent "response.audio_transcript.done"

/-- `response.done`, the response-completed event. -/
def responseDoneEvent : ServerEvent := mkEvent "response.done"

/-- `conversation.item.input_audio_transcription.completed` carrying the
transcript `"hello there"`. -/
def helloTranscriptEvent : ServerEvent :=
  { type := "conversation.item.input_audio_transcription.completed"
    item := none, transcript := some "hello there", delta := none, errorMessage := none }

/-- The `type` strings handled by a named `case` of `handleServerEvent`. -/
def handledEventTypes : List String :=
  ["session.created", "session.updated",
   "input_audio_buffer.speech_started", "input_audio_buffer.speech_stopped",
   "input_audio_buffer.committed",
   "conversation.item.created",
   "conversation.item.input_audio_transcription.completed",
   "response.created", "response.output_item.added",
   "response.audio_transcript.delta", "response.output_audio_transcript.delta",
   "response.text.delta", "response.output_text.delta",
   "response.audio_transcript.done", "response.output_audio_transcript.done",
   "response.text.done", "response.output_text.done",
   "response.output_item.done", "response.audio.delta", "response.audio.done",
   "response.done", "rate_limits.updated", "error"]

/-- The `type` strings of the four assistant delta cases. -/
def deltaEventTypes : List String :=
  ["response.audio_transcript.delta", "response.output_audio_transcript.delta",
   "response.text.delta", "response.output_text.delta"]

/-! ## Open-turn accounting for the at-most-one-open-turn analysis -/

/-- A transcript message that is an assistant turn still marked non-final. -/
def isOpenAssistant (m : RealtimeMessage) : Bool :=
  m.type == Role.assistant && !m.isFinal

/-- Number of simultaneously non-final assistant messages. -/
def openAssistantCount (msgs : List RealtimeMessage) : Nat :=
  (msgs.filter isOpenAssistant).length

/-- Whether an event is an assistant `response.output_item.added`, i.e. takes
the turn-opening branch of `handleServerEvent`. -/
def isAssistantOpenEvent (e : ServerEvent) : Bool :=
  e.type == "response.output_item.added" &&
    (match e.item with
     | some item => item.role == some "assistant"
     | none => false)

/-- Protocol-conformance check on an event sequence, evaluated along the run:
`true` iff every assistant `response.output_item.added` is processed in a
state with no still-open (non-final) assistant message. -/
def addedGuard : HookState → List ServerEvent → Bool
  | _, [] => true
  | s, e :: es =>
    (!isAssistantOpenEvent e || openAssistantCount s.state.messages == 0) &&
    addedGuard (handleServerEvent s e) es

/-- Inductive invariant of the transcript assembler: message ids stay below the
counter and are pairwise distinct, at most one assistant message is non-final,
and while the open-turn pointer is set every non-final assistant message is
the pointed one. -/
structure Inv (s : HookState) : Prop where
  bounded : ∀ m ∈ s.state.messages, m.id ≤ s.messageIdCounter
  nodup : (s.state.messages.map RealtimeMessage.id).Nodup
  atMostOne : openAssistantCount s.state.messages ≤ 1
  tracked : ∀ m ∈ s.state.messages, m.type = Role.assistant → m.isFinal = false →
    ∀ p, s.currentAssistantMessageId = some p → m.id = p

/-- A session holding one finalized assistant turn that is no longer tracked
(the open-turn pointer is clear), e.g. after `response.output_item.done`. -/
def finalTurnState : HookState :=
  { initState with
      state := { initAgentState with messages :=
        [{ id := 1, type := Role.assistant, content := "done", isFinal := true }] }
      messageIdCounter := 1 }

/-- A connected session holding every owned resource, with an active
recorder. -/
def teardownWitnessState : HookState :=
  { initState with
      peerConnection := some { connectionState := RTCPeerConnectionState.connected }
      dataChannel := some { readyState := RTCDataChannelState.«open» }
      audioElement := some ()
      localStream := some ()
      remoteStream := some ()
      mediaRecorder := some { state := RecorderState.recording }
      audioContext := some () }

/-- A session with an open data channel while the agent is speaking. -/
def openChannelState : HookState :=
  { initState with
      dataChannel := some { readyState := RTCDataChannelState.«open» }
      state := { initAgentState with isSpeaking := true } }

/-! ## Helper lemmas -/

theorem inv_of_frame (s s' : HookState) (hInv : Inv s)
    (hm : s'.state.messages = s.state.messages)
    (hc : s'.messageIdCounter = s.messageIdCounter)
    (hp : s'.currentAssistantMessageId = s.currentAssistantMessageId ∨
          s'.currentAssistantMessageId = none) : Inv s' := by
  constructor
  · intro m hmem
    rw [hc]
    exact hInv.bounded m (by rwa [hm] at hmem)
  · rw [hm]; exact hInv.nodup
  · rw [hm]; exact hInv.atMostOne
  · intro m hmem hty hfin p hptr
    rcases hp with hp | hp
    · exact hInv.tracked m (by rwa [hm] at hmem) hty hfin p (by rw [← hp]; exact hptr)
    · rw [hp] at hptr; exact absurd hptr (by simp)

theorem openAssistantCount_eq_zero {msgs : List RealtimeMessage}
    (h : openAssistantCount msgs = 0) : ∀ m ∈ msgs, isOpenAssistant m = false := by
  intro m hm
  by_contra hne
  have htrue : isOpenAssistant m = true := by
    revert hne; cases isOpenAssistant m <;> simp
  have hmem : m ∈ msgs.filter isOpenAssistant := List.mem_filter.mpr ⟨hm, htrue⟩
  rw [openAssistantCount, List.length_eq_zero] at h
  rw [h] at hmem
  exact absurd hmem (List.not_mem_nil m)

theorem filter_length_le_of_imp {α : Type} (l : List α) (p q : α → Bool)
    (h : ∀ a ∈ l, p a = true → q a = true) :
    (l.filter p).length ≤ (l.filter q).length := by
  induction l with
  | nil => simp
  | cons a l ih =>
    have ih' := ih (fun a ha => h a (List.mem_cons_of_mem _ ha))
    by_cases hp : p a = true
    · have hq := h a (List.mem_cons_self a l) hp
      simp only [List.filter_cons, hp, hq, if_true, List.length_cons]
      exact Nat.succ_le_succ ih'
    · have hp' : p a = false := by revert hp; cases p a <;> simp
      simp only [List.filter_cons, hp']
      by_cases hq : q a = true
      · simp only [hq, if_true, List.length_cons]
        exact Nat.le_trans ih' (Nat.le_succ _)
      · have hq' : q a = false := by revert hq; cases q a <;> simp
        simp only [hq']
        exact ih'

theorem length_filter_id_le_one {l : List RealtimeMessage} (k : Nat)
    (h : (l.map RealtimeMessage.id).Nodup) :
    (l.filter (fun m => m.id == k)).length ≤ 1 := by
  induction l with
  | nil => simp
  | cons a l ih =>
    rw [List.map_cons, List.nodup_cons] at h
    by_cases ha : a.id = k
    · have hnil : l.filter (fun m => m.id == k) = [] := by
        rw [List.filter_eq_nil_iff]
        intro m hm
        simp only [beq_iff_eq]
        intro hmk
        exact h.1 (List.mem_map.mpr ⟨m, hm, by rw [hmk, ha]⟩)
      simp [List.filter_cons, ha, hnil]
    · simp only [List.filter_cons, beq_iff_eq, ha, if_false]
      exact ih h.2

theorem updContent_id (msgId : Nat) (c : String) (b : Bool) (m : RealtimeMessage) :
    (updContent msgId c b m).id = m.id := by
  unfold updContent; split <;> rfl

theorem updContent_of_ne (msgId : Nat) (c : String) (b : Bool) (m : RealtimeMessage)
    (h : m.id ≠ msgId) : updContent msgId c b m = m := by
  unfold updContent; exact if_neg h

theorem map_updContent_id (msgs : List RealtimeMessage) (k : Nat) (c : String)
    (b : Bool) :
    (msgs.map (updContent k c b)).map RealtimeMessage.id =
      msgs.map RealtimeMessage.id := by
  rw [List.map_map]
  exact List.map_congr_left (fun a _ => updContent_id k c b a)

theorem bounded_map_updContent {msgs : List RealtimeMessage} {cnt : Nat}
    (k : Nat) (c : String) (b : Bool)
    (h : ∀ m ∈ msgs, m.id ≤ cnt) :
    ∀ m' ∈ msgs.map (updContent k c b), m'.id ≤ cnt := by
  intro m' hm'
  obtain ⟨m, hm, rfl⟩ := List.mem_map.mp hm'
  rw [updContent_id]
  exact h m hm

theorem addUserMessage_eq (s : HookState) (t : String) :
    addUserMessage s t =
      { s with
          state := { s.state with messages := s.state.messages ++
            [{ id := s.messageIdCounter + 1, type := Role.user, content := t,
               isFinal := true }] }
          messageIdCounter := s.messageIdCounter + 1 } := rfl

theorem inv_addUserMessage (s : HookState) (t : String) (hInv : Inv s) :
    Inv (addUserMessage s t) := by
  rw [addUserMessage_eq]
  constructor
  · intro m hmem
    simp only [List.mem_append, List.mem_singleton] at hmem
    rcases hmem with hmem | hmem
    · exact Nat.le_trans (hInv.bounded m hmem) (Nat.le_succ _)
    · rw [hmem]
  · simp only [List.map_append, List.map_cons, List.map_nil]
    apply List.Nodup.append hInv.nodup (List.nodup_singleton _)
    intro x hx hx'
    simp only [List.mem_singleton] at hx'
    obtain ⟨m, hm, hid⟩ := List.mem_map.mp hx
    have := hInv.bounded m hm
    omega
  · show openAssistantCount (s.state.messages ++ [_]) ≤ 1
    rw [openAssistantCount, List.filter_append]
    have hsing : List.filter isOpenAssistant
        [{ id := s.messageIdCounter + 1, type := Role.user, content := t,
           isFinal := true }] = [] := rfl
    rw [hsing, List.append_nil]
    exact hInv.atMostOne
  · intro m hmem hty hfin p hptr
    simp only [List.mem_append, List.mem_singleton] at hmem
    rcases hmem with hmem | hmem
    · exact hInv.tracked m hmem hty hfin p hptr
    · rw [hmem] at hty; exact absurd hty (by simp)

theorem inv_handleTranscriptionCompleted (s : HookState) (e : ServerEvent)
    (hInv : Inv s) : Inv (handleTranscriptionCompleted s e) := by
  unfold handleTranscriptionCompleted
  split
  · rename_i t heq
    by_cases ht : t = ""
    · rw [if_pos ht]; exact hInv
    · rw [if_neg ht]; exact inv_addUserMessage s t hInv
  · exact hInv

theorem handleItemCreated_cases (s : HookState) (e : ServerEvent) :
    handleItemCreated s e = s ∨
      ∃ t, handleItemCreated s e = addUserMessage s t := by
  unfold handleItemCreated
  split
  · rename_i item hi
    by_cases hrole : item.role = some "user"
    · rw [if_pos hrole]
      split
      · rename_i parts hc
        split
        · rename_i part hf
          split
          · rename_i t hx
            by_cases ht : t = ""
            · rw [if_pos ht]; exact Or.inl rfl
            · rw [if_neg ht]; exact Or.inr ⟨t, rfl⟩
          · exact Or.inl rfl
        · exact Or.inl rfl
      · exact Or.inl rfl
    · rw [if_neg hrole]; exact Or.inl rfl
  · exact Or.inl rfl

theorem inv_handleItemCreated (s : HookState) (e : ServerEvent) (hInv : Inv s) :
    Inv (handleItemCreated s e) := by
  rcases handleItemCreated_cases s e with h | ⟨t, h⟩
  · rw [h]; exact hInv
  · rw [h]; exact inv_addUserMessage s t hInv

theorem inv_handleOutputItemAdded (s : HookState) (e : ServerEvent) (hInv : Inv s)
    (hty : e.type = "response.output_item.added")
    (hguard : isAssistantOpenEvent e = true →
      openAssistantCount s.state.messages = 0) :
    Inv (handleOutputItemAdded s e) := by
  unfold handleOutputItemAdded
  split
  · rename_i item hi
    by_cases hrole : item.role = some "assistant"
    · rw [if_pos hrole]
      have hcount : openAssistantCount s.state.messages = 0 := by
        apply hguard
        simp [isAssistantOpenEvent, hty, hi, hrole]
      have hnone := openAssistantCount_eq_zero hcount
      constructor
      · intro m hmem
        simp only [generateMessageId, addMessage, List.mem_append,
          List.mem_singleton] at hmem ⊢
        rcases hmem with hmem | hmem
        · exact Nat.le_trans (hInv.bounded m hmem) (Nat.le_succ _)
        · rw [hmem]
      · simp only [generateMessageId, addMessage, List.map_append, List.map_cons,
          List.map_nil]
        apply List.Nodup.append hInv.nodup (List.nodup_singleton _)
        intro x hx hx'
        simp only [List.mem_singleton] at hx'
        obtain ⟨m, hm, hid⟩ := List.mem_map.mp hx
        have := hInv.bounded m hm
        omega
      · show openAssistantCount (s.state.messages ++ [_]) ≤ 1
        rw [openAssistantCount, List.filter_append]
        rw [openAssistantCount, List.length_eq_zero, List.filter_eq_nil_iff] at hcount
        have hfe : s.state.messages.filter isOpenAssistant = [] := by
          rw [List.filter_eq_nil_iff]; exact hcount
        rw [hfe]
        simp [isOpenAssistant]
      · intro m hmem hmty hfin p hptr
        simp only [generateMessageId, addMessage, List.mem_append,
          List.mem_singleton] at hmem
        simp only [generateMessageId, addMessage, Option.some.injEq] at hptr
        rcases hmem with hmem | hmem
        · have := hnone m hmem
          rw [isOpenAssistant] at this
          simp [hmty, hfin] at this
        · rw [hmem, ← hptr]
    · rw [if_neg hrole]; exact hInv
  · exact hInv

theorem open_imp_id_eq (s : HookState) (hInv : Inv s) {msgId : Nat}
    (hp : s.currentAssistantMessageId = some msgId) (t : String) :
    ∀ m' ∈ s.state.messages.map (updContent msgId t false),
      isOpenAssistant m' = true → m'.id = msgId := by
  intro m' hm' hopen
  obtain ⟨m, hm, rfl⟩ := List.mem_map.mp hm'
  by_cases hid : m.id = msgId
  · rw [updContent_id]; exact hid
  · rw [updContent_of_ne _ _ _ _ hid] at hopen ⊢
    rw [isOpenAssistant, Bool.and_eq_true, beq_iff_eq, Bool.not_eq_true'] at hopen
    exact absurd (hInv.tracked m hm hopen.1 hopen.2 msgId hp) hid

theorem inv_handleDelta (s : HookState) (e : ServerEvent) (hInv : Inv s) :
    Inv (handleDelta s e) := by
  unfold handleDelta
  split
  · rename_i d msgId hd hp
    by_cases hde : d = ""
    · rw [if_pos hde]; exact hInv
    · rw [if_neg hde]
      have hkey := open_imp_id_eq s hInv hp (s.currentAssistantText ++ d)
      constructor
      · intro m hmem
        exact bounded_map_updContent msgId (s.currentAssistantText ++ d) false
          hInv.bounded m hmem
      · show (List.map RealtimeMessage.id (List.map _ s.state.messages)).Nodup
        rw [map_updContent_id]
        exact hInv.nodup
      · show openAssistantCount
          (s.state.messages.map (updContent msgId (s.currentAssistantText ++ d) false)) ≤ 1
        rw [openAssistantCount]
        refine Nat.le_trans
          (filter_length_le_of_imp _ isOpenAssistant (fun m => m.id == msgId) ?_) ?_
        · intro m hm hopen
          rw [beq_iff_eq]
          exact hkey m hm hopen
        · apply length_filter_id_le_one
          rw [map_updContent_id]
          exact hInv.nodup
      · intro m hmem hmty hfin p hptr
        have hopen : isOpenAssistant m = true := by
          rw [isOpenAssistant, Bool.and_eq_true, beq_iff_eq, Bool.not_eq_true']
          exact ⟨hmty, hfin⟩
        have hid := hkey m hmem hopen
        have : some msgId = some p := by rw [← hp]; exact hptr
        cases this
        exact hid
  · exact hInv

theorem closed_after_finalize (s : HookState) (hInv : Inv s) {msgId : Nat}
    (hp : s.currentAssistantMessageId = some msgId) (t : String) :
    ∀ m' ∈ s.state.messages.map (updContent msgId t true),
      isOpenAssistant m' = false := by
  intro m' hm'
  obtain ⟨m, hm, rfl⟩ := List.mem_map.mp hm'
  by_cases hid : m.id = msgId
  · rw [updContent, if_pos hid, isOpenAssistant]
    simp
  · rw [updContent_of_ne _ _ _ _ hid]
    cases hopen : isOpenAssistant m
    · rfl
    · rw [isOpenAssistant, Bool.and_eq_true, beq_iff_eq, Bool.not_eq_true'] at hopen
      exact absurd (hInv.tracked m hm hopen.1 hopen.2 msgId hp) hid

theorem inv_updateMessage_final (s : HookState) (hInv : Inv s) {msgId : Nat}
    (hp : s.currentAssistantMessageId = some msgId) (t : String) :
    Inv (updateMessage s msgId t true) := by
  have hclosed := closed_after_finalize s hInv hp t
  constructor
  · intro m hmem
    exact bounded_map_updContent msgId t true hInv.bounded m hmem
  · show (List.map RealtimeMessage.id (List.map _ s.state.messages)).Nodup
    rw [map_updContent_id]
    exact hInv.nodup
  · show openAssistantCount (s.state.messages.map (updContent msgId t true)) ≤ 1
    rw [openAssistantCount]
    have hnil : List.filter isOpenAssistant
        (List.map (updContent msgId t true) s.state.messages) = [] := by
      rw [List.filter_eq_nil_iff]
      intro m hm
      rw [hclosed m hm]
      exact Bool.false_ne_true
    rw [hnil]
    exact Nat.zero_le 1
  · intro m hmem hmty hfin p hptr
    have hopen : isOpenAssistant m = true := by
      rw [isOpenAssistant, Bool.and_eq_true, beq_iff_eq, Bool.not_eq_true']
      exact ⟨hmty, hfin⟩
    rw [hclosed m hmem] at hopen
    exact absurd hopen Bool.false_ne_true

theorem inv_handleTextDone (s : HookState) (hInv : Inv s) :
    Inv (handleTextDone s) := by
  unfold handleTextDone
  split
  · rename_i msgId hp
    exact inv_updateMessage_final s hInv hp s.currentAssistantText
  · exact hInv

theorem inv_handleOutputItemDone (s : HookState) (hInv : Inv s) :
    Inv (handleOutputItemDone s) := by
  unfold handleOutputItemDone
  split
  · rename_i msgId hp
    by_cases ht : s.currentAssistantText = ""
    · rw [if_pos ht]
      exact inv_of_frame s _ hInv rfl rfl (Or.inr rfl)
    · rw [if_neg ht]
      exact inv_of_frame (updateMessage s msgId s.currentAssistantText true) _
        (inv_updateMessage_final s hInv hp s.currentAssistantText) rfl rfl (Or.inr rfl)
  · exact inv_of_frame s _ hInv rfl rfl (Or.inr rfl)

set_option maxHeartbeats 2000000 in
theorem inv_step (s : HookState) (e : ServerEvent) (hInv : Inv s)
    (hguard : isAssistantOpenEvent e = true →
      openAssistantCount s.state.messages = 0) :
    Inv (handleServerEvent s e) := by
  unfold handleServerEvent
  by_cases h1 : e.type = "session.created"
  · rw [if_pos h1]; exact hInv
  rw [if_neg h1]
  by_cases h2 : e.type = "session.updated"
  · rw [if_pos h2]; exact hInv
  rw [if_neg h2]
  by_cases h3 : e.type = "input_audio_buffer.speech_started"
  · rw [if_pos h3]; exact inv_of_frame s _ hInv rfl rfl (Or.inl rfl)
  rw [if_neg h3]
  by_cases h4 : e.type = "input_audio_buffer.speech_stopped"
  · rw [if_pos h4]; exact inv_of_frame s _ hInv rfl rfl (Or.inl rfl)
  rw [if_neg h4]
  by_cases h5 : e.type = "input_audio_buffer.committed"
  · rw [if_pos h5]; exact hInv
  rw [if_neg h5]
  by_cases h6 : e.type = "conversation.item.created"
  · rw [if_pos h6]; exact inv_handleItemCreated s e hInv
  rw [if_neg h6]
  by_cases h7 : e.type = "conversation.item.input_audio_transcription.completed"
  · rw [if_pos h7]; exact inv_handleTranscriptionCompleted s e hInv
  rw [if_neg h7]
  by_cases h8 : e.type = "response.created"
  · rw [if_pos h8]; exact inv_of_frame s _ hInv rfl rfl (Or.inl rfl)
  rw [if_neg h8]
  by_cases h9 : e.type = "response.output_item.added"
  · rw [if_pos h9]; exact inv_handleOutputItemAdded s e hInv h9 hguard
  rw [if_neg h9]
  by_cases h10 : e.type = "response.audio_transcript.delta"
      ∨ e.type = "response.output_audio_transcript.delta"
  · rw [if_pos h10]; exact inv_handleDelta s e hInv
  rw [if_neg h10]
  by_cases h11 : e.type = "response.text.delta"
      ∨ e.type = "response.output_text.delta"
  · rw [if_pos h11]; exact inv_handleDelta s e hInv
  rw [if_neg h11]
  by_cases h12 : e.type = "response.audio_transcript.done"
      ∨ e.type = "response.output_audio_transcript.done"
      ∨ e.type = "response.text.done"
      ∨ e.type = "response.output_text.done"
  · rw [if_pos h12]; exact inv_handleTextDone s hInv
  rw [if_neg h12]
  by_cases h13 : e.type = "response.output_item.done"
  · rw [if_pos h13]; exact inv_handleOutputItemDone s hInv
  rw [if_neg h13]
  by_cases h14 : e.type = "response.audio.delta"
  · rw [if_pos h14]; exact inv_of_frame s _ hInv rfl rfl (Or.inl rfl)
  rw [if_neg h14]
  by_cases h15 : e.type = "response.audio.done"
  · rw [if_pos h15]; exact hInv
  rw [if_neg h15]
  by_cases h16 : e.type = "response.done"
  · rw [if_pos h16]; exact inv_of_frame s _ hInv rfl rfl (Or.inr rfl)
  rw [if_neg h16]
  by_cases h17 : e.type = "rate_limits.updated"
  · rw [if_pos h17]; exact hInv
  rw [if_neg h17]
  by_cases h18 : e.type = "error"
  · rw [if_pos h18]; exact inv_of_frame s _ hInv rfl rfl (Or.inl rfl)
  rw [if_neg h18]
  exact hInv

theorem inv_initState : Inv initState := by
  constructor
  · intro m hmem
    exact absurd hmem (List.not_mem_nil m)
  · exact List.nodup_nil
  · exact Nat.zero_le 1
  · intro m hmem
    exact absurd hmem (List.not_mem_nil m)

theorem processEvents_cons (s : HookState) (e : ServerEvent)
    (es : List ServerEvent) :
    processEvents s (e :: es) = processEvents (handleServerEvent s e) es := rfl

theorem addedGuard_cons_iff (s : HookState) (e : ServerEvent)
    (es : List ServerEvent) :
    addedGuard s (e :: es) = true ↔
      ((!isAssistantOpenEvent e ||
        openAssistantCount s.state.messages == 0) = true ∧
       addedGuard (handleServerEvent s e) es = true) := by
  rw [addedGuard, Bool.and_eq_true]

theorem inv_processEvents (es : List ServerEvent) : ∀ s : HookState, Inv s →
    addedGuard s es = true → Inv (processEvents s es) := by
  induction es with
  | nil => intro s hInv _; exact hInv
  | cons e es ih =>
    intro s hInv hg
    rw [addedGuard_cons_iff] at hg
    have hguard : isAssistantOpenEvent e = true →
        openAssistantCount s.state.messages = 0 := by
      intro ha
      have := hg.1
      rw [ha] at this
      simpa using this
    rw [processEvents_cons]
    exact ih _ (inv_step s e hInv hguard) hg.2

theorem addedGuard_append (pre suf : List ServerEvent) : ∀ s : HookState,
    addedGuard s (pre ++ suf) = true → addedGuard s pre = true := by
  induction pre with
  | nil => intro s _; rfl
  | cons e pre ih =>
    intro s h
    rw [List.cons_append, addedGuard_cons_iff] at h
    rw [addedGuard_cons_iff]
    exact ⟨h.1, ih _ h.2⟩

theorem disconnect_resets (t : HookState) :
    (disconnect t).peerConnection = none ∧ (disconnect t).dataChannel = none ∧
    (disconnect t).audioElement = none ∧ (disconnect t).localStream = none ∧
    (disconnect t).remoteStream = none ∧ (disconnect t).audioContext = none ∧
    ((disconnect t).mediaRecorder = none ∨
      (disconnect t).mediaRecorder = some { state := RecorderState.inactive }) := by
  refine ⟨rfl, rfl, rfl, rfl, rfl, rfl, ?_⟩
  cases hr : t.mediaRecorder with
  | none => exact Or.inl (by simp [disconnect, cleanup, hr])
  | some r =>
    cases r with
    | mk st =>
      cases st with
      | inactive => exact Or.inr (by simp [disconnect, cleanup, hr])
      | recording => exact Or.inl (by simp [disconnect, cleanup, hr])
      | paused => exact Or.inl (by simp [disconnect, cleanup, hr])

/-! ## Claim theorems -/

/-- C1 counterexample: processing two consecutive assistant
`response.output_item.added` events from the initial state leaves two
assistant messages that are simultaneously non-final, so the assembler does
NOT maintain at most one open assistant turn for arbitrary event
sequences. -/
theorem c1_two_open_assistant_turns :
    openAssistantCount (processEvents initState
      [addedAssistantEvent, addedAssistantEvent]).state.messages = 2 := by decide

/-- C1 (amended): for every event sequence in which an assistant
`response.output_item.added` never arrives while some assistant message is
still non-final (`addedGuard`), at no point of the run — i.e. after every
prefix — do two assistant messages simultaneously have `isFinal = false`. -/
theorem c1_at_most_one_open_assistant_turn (events pre suf : List ServerEvent)
    (hsplit : events = pre ++ suf)
    (hguard : addedGuard initState events = true) :
    openAssistantCount (processEvents initState pre).state.messages ≤ 1 := by
  subst hsplit
  exact (inv_processEvents pre initState inv_initState
    (addedGuard_append pre suf initState hguard)).atMostOne

/-- C1 witness: the amended theorem applied to the concrete guarded trace
`[output_item.added, delta "hi"]` and its one-event prefix. -/
theorem c1_at_most_one_open_assistant_turn_witness :
    addedGuard initState [addedAssistantEvent, deltaEvent "hi"] = true ∧
    openAssistantCount (processEvents initState
      [addedAssistantEvent]).state.messages ≤ 1 :=
  ⟨by decide,
   c1_at_most_one_open_assistant_turn [addedAssistantEvent, deltaEvent "hi"]
     [addedAssistantEvent] [deltaEvent "hi"] rfl (by decide)⟩

/-- C2 counterexample: after `output_item.added` then an explicit
`audio_transcript.done` the turn is final with content `""`, yet a subsequent
delta `"x"` rewrites it to content `"x"` and `isFinal = false` — the delta
addressed to an already-final turn is NOT rejected, because the `*.done`
handler leaves the open-turn pointer set. -/
theorem c2_delta_mutates_finalized_turn :
    (processEvents initState
        [addedAssistantEvent, textDoneEvent]).state.messages =
      [{ id := 1, type := Role.assistant, content := "", isFinal := true }] ∧
    (processEvents initState
        [addedAssistantEvent, textDoneEvent, deltaEvent "x"]).state.messages =
      [{ id := 1, type := Role.assistant, content := "x", isFinal := false }] :=
  ⟨by decide, by decide⟩

/-- C2 (amended): a delta event leaves every final turn unchanged EXCEPT one
still referenced by the open-turn pointer: if a final message is not the
pointed one, any delta keeps that exact message in the list and changes no
list length. -/
theorem c2_delta_preserves_untracked_final_turn (s : HookState)
    (e : ServerEvent) (m : RealtimeMessage)
    (hty : e.type ∈ deltaEventTypes)
    (hm : m ∈ s.state.messages) (hfin : m.isFinal = true)
    (hptr : s.currentAssistantMessageId ≠ some m.id) :
    m ∈ (handleServerEvent s e).state.messages ∧
    (handleServerEvent s e).state.messages.length =
      s.state.messages.length := by
  have hred : handleServerEvent s e = handleDelta s e := by
    simp only [deltaEventTypes, List.mem_cons, List.not_mem_nil,
      or_false] at hty
    rcases hty with h | h | h | h <;> simp [handleServerEvent, h]
  rw [hred]
  unfold handleDelta
  split
  · rename_i d msgId hd hp
    by_cases hde : d = ""
    · rw [if_pos hde]; exact ⟨hm, rfl⟩
    · rw [if_neg hde]
      have hne : m.id ≠ msgId := by
        intro hcontra
        exact hptr (by rw [hp, hcontra])
      constructor
      · have h2 := List.mem_map_of_mem
          (updContent msgId (s.currentAssistantText ++ d) false) hm
        rwa [updContent_of_ne _ _ _ _ hne] at h2
      · exact List.length_map _ _
  · exact ⟨hm, rfl⟩

/-- C2 witness: the amended theorem at a finalized, no-longer-tracked turn and
the delta `"x"`. -/
theorem c2_delta_preserves_untracked_final_turn_witness :
    { id := 1, type := Role.assistant, content := "done", isFinal := true } ∈
      (handleServerEvent finalTurnState (deltaEvent "x")).state.messages ∧
    (handleServerEvent finalTurnState (deltaEvent "x")).state.messages.length =
      finalTurnState.state.messages.length :=
  c2_delta_preserves_untracked_final_turn finalTurnState (deltaEvent "x")
    { id := 1, type := Role.assistant, content := "done", isFinal := true }
    (by decide) (by decide) rfl (by decide)

/-- C3 counterexample: on `open(assistant) → delta("hi") → response.done` the
resulting assistant turn has content `"hi"` but `isFinal = false`: the
`response.done` handler clears the refs without finalizing, so the claimed
fallback finalize does not happen. -/
theorem c3_response_done_leaves_turn_non_final :
    (processEvents initState [addedAssistantEvent, deltaEvent "hi",
      responseDoneEvent]).state.messages =
      [{ id := 1, type := Role.assistant, content := "hi",
         isFinal := false }] := by decide

/-- C3 (amended): after `open(assistant) → delta("hi") → response.done` the
turn keeps its accumulated content exactly `"hi"` but remains non-final;
`response.done` clears the open-turn pointer (so the turn can no longer be
addressed) and the speaking flag instead of finalizing. -/
theorem c3_response_done_clears_pointer_keeps_content :
    (processEvents initState [addedAssistantEvent, deltaEvent "hi",
        responseDoneEvent]).state.messages.map RealtimeMessage.content =
      ["hi"] ∧
    (processEvents initState [addedAssistantEvent, deltaEvent "hi",
        responseDoneEvent]).state.messages.map RealtimeMessage.isFinal =
      [false] ∧
    (processEvents initState [addedAssistantEvent, deltaEvent "hi",
        responseDoneEvent]).currentAssistantMessageId = none ∧
    (processEvents initState [addedAssistantEvent, deltaEvent "hi",
        responseDoneEvent]).state.isSpeaking = false := by
  exact ⟨by decide, by decide, by decide, by decide⟩

/-- C4 counterexample: from a state whose media-recorder ref holds an already
inactive recorder (reachable via `startRecording` then `stopRecording`),
`disconnect()` does NOT null the media recorder reference, because `cleanup`
nulls it only inside the `state !== "inactive"` guard. -/
theorem c4_inactive_recorder_survives_disconnect :
    (disconnect { initState with
        mediaRecorder := some { state := RecorderState.inactive } }).mediaRecorder
      ≠ none := by decide

/-- C4 (amended): calling `disconnect()` any positive number of times, in any
state, never throws (the embedding is total) and leaves the peer connection,
data channel, audio element, local stream, remote stream and audio context
references null; the media recorder reference is null unless it held an
already-inactive recorder, which is retained. -/
theorem c4_disconnect_releases_resources (s : HookState) (n : Nat)
    (h : 0 < n) :
    (disconnect^[n] s).peerConnection = none ∧
    (disconnect^[n] s).dataChannel = none ∧
    (disconnect^[n] s).audioElement = none ∧
    (disconnect^[n] s).localStream = none ∧
    (disconnect^[n] s).remoteStream = none ∧
    (disconnect^[n] s).audioContext = none ∧
    ((disconnect^[n] s).mediaRecorder = none ∨
      (disconnect^[n] s).mediaRecorder =
        some { state := RecorderState.inactive }) := by
  obtain ⟨m, rfl⟩ := Nat.exists_eq_succ_of_ne_zero (Nat.pos_iff_ne_zero.mp h)
  rw [Function.iterate_succ_apply']
  exact disconnect_resets _

/-- C4 witness: two `disconnect()` calls on a fully connected recording
session release every releasable resource. -/
theorem c4_disconnect_releases_resources_witness :
    0 < 2 ∧
    ((disconnect^[2] teardownWitnessState).peerConnection = none ∧
     (disconnect^[2] teardownWitnessState).dataChannel = none ∧
     (disconnect^[2] teardownWitnessState).audioElement = none ∧
     (disconnect^[2] teardownWitnessState).localStream = none ∧
     (disconnect^[2] teardownWitnessState).remoteStream = none ∧
     (disconnect^[2] teardownWitnessState).audioContext = none ∧
     ((disconnect^[2] teardownWitnessState).mediaRecorder = none ∨
      (disconnect^[2] teardownWitnessState).mediaRecorder =
        some { state := RecorderState.inactive })) :=
  ⟨by decide, c4_disconnect_releases_resources teardownWitnessState 2 (by decide)⟩

/-- C5 (confirmed): an event whose `type` string matches none of the handled
kinds takes the logged-and-dropped `default` branch: no thrown error (the
handler is total) and the session state is returned unchanged. -/
theorem c5_unknown_event_no_state_change (s : HookState) (e : ServerEvent)
    (h : e.type ∉ handledEventTypes) : handleServerEvent s e = s := by
  simp only [handledEventTypes, List.mem_cons, List.not_mem_nil, or_false,
    not_or] at h
  obtain ⟨n1, n2, n3, n4, n5, n6, n7, n8, n9, n10, n11, n12, n13, n14, n15,
    n16, n17, n18, n19, n20, n21, n22, n23⟩ := h
  unfold handleServerEvent
  rw [if_neg n1, if_neg n2, if_neg n3, if_neg n4, if_neg n5, if_neg n6,
    if_neg n7, if_neg n8, if_neg n9]
  rw [if_neg (not_or.mpr ⟨n10, n11⟩)]
  rw [if_neg (not_or.mpr ⟨n12, n13⟩)]
  rw [if_neg (not_or.mpr ⟨n14, not_or.mpr ⟨n15, not_or.mpr ⟨n16, n17⟩⟩⟩)]
  rw [if_neg n18, if_neg n19, if_neg n20, if_neg n21, if_neg n22, if_neg n23]

/-- C5 witness: an unrecognized event type on the initial state. -/
theorem c5_unknown_event_no_state_change_witness :
    (mkEvent "transcript.telemetry").type ∉ handledEventTypes ∧
    handleServerEvent initState (mkEvent "transcript.telemetry") = initState :=
  ⟨by decide,
   c5_unknown_event_no_state_change initState (mkEvent "transcript.telemetry")
     (by decide)⟩

/-- C6 (confirmed): a single
`conversation.item.input_audio_transcription.completed` event with transcript
`"hello there"` appends exactly one message — role `user`, content exactly
`"hello there"`, `isFinal = true` — to any session state, bumping only the id
counter; no intermediate non-final user turn exists at any point. -/
theorem c6_user_utterance_atomic (s : HookState) :
    handleServerEvent s helloTranscriptEvent =
      { s with
          state := { s.state with messages := s.state.messages ++
            [{ id := s.messageIdCounter + 1, type := Role.user,
               content := "hello there", isFinal := true }] }
          messageIdCounter := s.messageIdCounter + 1 } := rfl

/-- C7 (confirmed): for every non-success upstream response the relay replies
with exactly the upstream HTTP status code (no remapping to 500) and the
fixed JSON error-description body, which differs from any upstream body that
is not itself that fixed string. -/
theorem c7_relay_preserves_upstream_status (sdp : String)
    (agentId : Option Int) (getAgent : Int → Option Agent)
    (upstream : SessionConfig → Except Unit UpstreamResponse)
    (up : UpstreamResponse) (hsdp : sdp ≠ "")
    (hup : upstream (sessionConfigFor agentId getAgent) = Except.ok up)
    (hok : up.ok = false) :
    realtimeSessionRoute (some sdp) agentId getAgent upstream =
      { status := up.status, contentType := "application/json",
        body := realtimeSessionErrorBody } ∧
    (up.body ≠ realtimeSessionErrorBody →
      (realtimeSessionRoute (some sdp) agentId getAgent upstream).body ≠
        up.body) := by
  have h1 : realtimeSessionRoute (some sdp) agentId getAgent upstream =
      { status := up.status, contentType := "application/json",
        body := realtimeSessionErrorBody } := by
    simp [realtimeSessionRoute, hsdp, hup, hok]
  refine ⟨h1, fun hb hcontra => ?_⟩
  rw [h1] at hcontra
  exact hb (Eq.symm hcontra)

/-- C7 witness: a 401 upstream failure is propagated as 401 with the fixed
error body. -/
theorem c7_relay_preserves_upstream_status_witness :
    realtimeSessionRoute (some "v=0") none (fun _ => none)
        (fun _ => Except.ok { ok := false, status := 401, body := "upstream body" }) =
      { status := 401, contentType := "application/json",
        body := realtimeSessionErrorBody } ∧
    ("upstream body" ≠ realtimeSessionErrorBody →
      (realtimeSessionRoute (some "v=0") none (fun _ => none)
        (fun _ => Except.ok { ok := false, status := 401, body := "upstream body" })).body ≠
        "upstream body") :=
  c7_relay_preserves_upstream_status "v=0" none (fun _ => none)
    (fun _ => Except.ok { ok := false, status := 401, body := "upstream body" })
    { ok := false, status := 401, body := "upstream body" }
    (by decide) rfl rfl

/-- C8 (confirmed): whenever the local or remote stream reference is null,
`startRecording()` returns `false` without throwing (the embedding is total)
and only clears the recording-ready flag — in particular `isRecording` and
the rest of the session state are unchanged. -/
theorem c8_start_recording_requires_streams (env : RecorderEnv)
    (s : HookState) (h : s.localStream = none ∨ s.remoteStream = none) :
    startRecording env s = (false, { s with recordingReady := false }) := by
  unfold startRecording
  rw [if_pos h]

/-- C8 witness: `startRecording` on the never-connected initial state. -/
theorem c8_start_recording_requires_streams_witness :
    (initState.localStream = none ∨ initState.remoteStream = none) ∧
    startRecording { audioContextOk := true, mediaRecorderOk := true }
        initState = (false, { initState with recordingReady := false }) :=
  ⟨Or.inl rfl,
   c8_start_recording_requires_streams
     { audioContextOk := true, mediaRecorderOk := true } initState
     (Or.inl rfl)⟩

/-- C9 counterexample: `interrupt()` returns early when the data channel is
absent, so with no channel and `isSpeaking = true` the speaking flag is still
`true` afterwards — the claim that it is false after every `interrupt()` call
fails. -/
theorem c9_interrupt_no_channel_keeps_speaking :
    (interrupt { initState with
        state := { initAgentState with
                     isSpeaking := true } }).state.isSpeaking = true := by decide

/-- C9 (amended): when the data channel exists and is open, `interrupt()`
clears the speaking flag immediately without waiting for acknowledgment;
when the channel is unavailable it leaves the whole session state
unchanged. -/
theorem c9_interrupt_optimistic_when_channel_open (s : HookState) :
    (dataChannelIsOpen s = true → (interrupt s).state.isSpeaking = false) ∧
    (dataChannelIsOpen s = false → interrupt s = s) := by
  constructor
  · intro h
    unfold interrupt
    rw [if_pos h]
  · intro h
    simp [interrupt, h]

/-- C9 witness: the amended theorem on an open-channel speaking session. -/
theorem c9_interrupt_optimistic_when_channel_open_witness :
    dataChannelIsOpen openChannelState = true ∧
    (interrupt openChannelState).state.isSpeaking = false :=
  ⟨rfl, (c9_interrupt_optimistic_when_channel_open openChannelState).1 rfl⟩

/-- C10 (confirmed): when the data channel is null or not in the open ready
state, `sendTextMessage` returns at the guard and the whole session state —
message list included — is unchanged. -/
theorem c10_send_text_requires_channel (s : HookState) (t : String)
    (h : dataChannelIsOpen s = false) : sendTextMessage s t = s := by
  simp [sendTextMessage, h]

/-- C10 witness: sending on the never-connected initial state is a no-op. -/
theorem c10_send_text_requires_channel_witness :
    dataChannelIsOpen initState = false ∧
    sendTextMessage initState "hello" = initState :=
  ⟨rfl, c10_send_text_requires_channel initState "hello" rfl⟩

end MeetAI

